import Mathlib

/-!
Shallow embedding of the adelie memory subsystem (bus decoder, I/O registers,
cartridge mappers) used to check the natural-language specification against the
source.  Machine bytes and 16-bit addresses are modelled as `Nat` with explicit
masking where the source wraps; slices are `List Nat`; Rust `panic` sites
(out-of-bounds slice indexing, `Option::unwrap`, `todo!()`) are modelled by
`Option`-returning functions where they are reachable.
-/

namespace Adelie

/-- Console model, from src/adelie/src/instance.rs (enum Model). -/
inductive Model where
  | DMG
  | CGB
deriving DecidableEq

/-- Model.is_cgb from instance.rs. -/
def Model.isCgb : Model → Bool
  | .DMG => false
  | .CGB => true

/-- SOC_BASE_CLOCK_SPEED from instance.rs: 1024*1024*4. -/
def SOC_BASE_CLOCK_SPEED : Nat := 1024 * 1024 * 4

/-- Timer/divider register block, from io.rs struct TimerDIV { value: [u8; 4] }.
Field vI models value[I]: value[0] is DIV, value[1] TIMA, value[2] TMA,
value[3] TAC (per the comments in TimerDIV::read). -/
structure TimerDIV where
  v0 : Nat
  v1 : Nat
  v2 : Nat
  v3 : Nat
deriving DecidableEq

/-- TimerDIV::get_div returns a reference to value[0]; as a pure read. -/
def TimerDIV.getDiv (s : TimerDIV) : Nat := s.v0

/-- TimerDIV::get_timer_counter returns value[1]. -/
def TimerDIV.getTimerCounter (s : TimerDIV) : Nat := s.v1

/-- TimerDIV::get_timer_modulo returns value[2]. -/
def TimerDIV.getTimerModulo (s : TimerDIV) : Nat := s.v2

/-- TimerDIV::get_timer_control returns value[3]. -/
def TimerDIV.getTimerControl (s : TimerDIV) : Nat := s.v3

/-- TimerDIV::tick_div from io.rs.  Note the source increments the byte
obtained from get_timer_counter (value[1]), wrapping as a u8:
  let tick_div = soc_clock_count % (SOC_BASE_CLOCK_SPEED / 16384);
  if tick_div == 0 { let div = self.get_timer_counter(); *div = div.wrapping_add(1); } -/
def TimerDIV.tickDiv (s : TimerDIV) (socClockCount : Nat) : TimerDIV :=
  if socClockCount % (SOC_BASE_CLOCK_SPEED / 16384) = 0 then
    { s with v1 := (s.getTimerCounter + 1) % 256 }
  else
    s

/-- Rate table inside TimerDIV::tick_timer: match control & 0b11
{ 0 => 4096, 1 => 262144, 2 => 65536, 3 => 16384 }. -/
def timerRate (n : Nat) : Nat :=
  match n with
  | 0 => 4096
  | 1 => 262144
  | 2 => 65536
  | _ => 16384

/-- TimerDIV::tick_timer from io.rs: if the enable bit (control & 0b100) is set
and the cycle count is a multiple of SOC_BASE_CLOCK_SPEED / rate, increment the
counter value[1] as a u8; on overflow reload it from value[2] and report true. -/
def TimerDIV.tickTimer (s : TimerDIV) (socClockCount : Nat) : TimerDIV × Bool :=
  let control := s.getTimerControl
  if control &&& 0b100 ≠ 0 then
    let rate := timerRate (control &&& 0b11)
    if socClockCount % (SOC_BASE_CLOCK_SPEED / rate) = 0 then
      let modulo := s.getTimerModulo
      if 256 ≤ s.getTimerCounter + 1 then
        ({ s with v1 := modulo }, true)
      else
        ({ s with v1 := (s.getTimerCounter + 1) % 256 }, false)
    else
      (s, false)
  else
    (s, false)

/-- TimerDIV::read (InstantMemory impl) from io.rs: dispatch on address & 3. -/
def TimerDIV.read (s : TimerDIV) (address : Nat) : Nat :=
  match address &&& 3 with
  | 0 => s.getDiv
  | 1 => s.getTimerCounter
  | 2 => s.getTimerModulo
  | _ => s.getTimerControl

/-- TimerDIV::write from io.rs: DIV write resets value[0] to 0, TIMA write is a
no-op, TMA and TAC store the data byte. -/
def TimerDIV.write (s : TimerDIV) (address data : Nat) : TimerDIV :=
  match address &&& 3 with
  | 0 => { s with v0 := 0 }
  | 1 => s
  | 2 => { s with v2 := data }
  | _ => { s with v3 := data }

/-- DisableBootROM::write from io.rs: the stored byte is updated only when it
is currently non-zero:
  if self.byte[0] != 0 { self.byte[0] = data } -/
def disableBootRomWrite (byte data : Nat) : Nat :=
  if byte ≠ 0 then data else byte

/-- Joypad register state, from io.rs struct JoypadData. -/
structure JoypadData where
  selectButtons : Bool
  selectDpad : Bool
  a : Bool
  b : Bool
  start : Bool
  select : Bool
  up : Bool
  down : Bool
  left : Bool
  right : Bool
deriving DecidableEq

/-- JoypadData::read from io.rs. -/
def JoypadData.read (j : JoypadData) : Nat :=
  let boolBit (x : Bool) : Nat := if x then 1 else 0
  let r0 := 0b1111
  let r1 :=
    if j.selectDpad then
      (r0 ||| 0b10000)
        &&& (255 - (boolBit j.right <<< 0))
        &&& (255 - (boolBit j.left <<< 1))
        &&& (255 - (boolBit j.up <<< 2))
        &&& (255 - (boolBit j.down <<< 3))
    else r0
  if j.selectButtons then
    (r1 ||| 0b100000)
      &&& (255 - (boolBit j.a <<< 0))
      &&& (255 - (boolBit j.b <<< 1))
      &&& (255 - (boolBit j.select <<< 2))
      &&& (255 - (boolBit j.start <<< 3))
  else r1

/-- JoypadData::write from io.rs: only the two select bits are stored. -/
def JoypadData.write (j : JoypadData) (data : Nat) : JoypadData :=
  { j with selectDpad := data &&& 0b10000 ≠ 0, selectButtons := data &&& 0b100000 ≠ 0 }

/-- LCD register block from io.rs struct LCDData: only LCDC is modelled, plus
the catch-all unused byte. -/
structure LCDData where
  lcdc : Nat
  unused : Nat
deriving DecidableEq

/-- LCDData::read via resolve_address_to_byte: address & 0xF = 0 is LCDC,
0x1-0x5 and 0x7-0xA are todo!() (a Rust panic, modelled as none), the rest go
to the unused byte. -/
def LCDData.read (l : LCDData) (address : Nat) : Option Nat :=
  match address &&& 0xF with
  | 0x0 => some l.lcdc
  | 0x6 => some l.unused
  | 0xB | 0xC | 0xD | 0xE | 0xF => some l.unused
  | _ => none

/-- LCDData::write via resolve_address_to_byte; same panic structure as read. -/
def LCDData.write (l : LCDData) (address data : Nat) : Option LCDData :=
  match address &&& 0xF with
  | 0x0 => some { l with lcdc := data }
  | 0x6 => some { l with unused := data }
  | 0xB | 0xC | 0xD | 0xE | 0xF => some { l with unused := data }
  | _ => none

/-- NullMemory::read_out from memory.rs returns the constant fill byte 0xFF. -/
def nullMemoryReadOut : Nat := 0xFF

/-- BootROM::read from memory.rs: low region below 0x100, high region
0x200-0x8FF backed at offset 0x100 of the contiguous buffer, the defensive
else branch returns 0xFF. -/
def bootRomRead (data : List Nat) (address : Nat) : Nat :=
  if address < 256 then
    data.getD address 0
  else if 0x200 ≤ address ∧ address ≤ 0x8FF then
    data.getD (256 + (address - 0x200)) 0
  else
    0xFF

/-- The target device an address resolves to, one constructor per distinct
target reference returned by IO::resolve_address_to_device in io.rs. -/
inductive Device where
  | cartridge
  | bootRom
  | videoRam
  | workRam
  | oam
  | highRam
  | noAccess
  | joypad
  | serialTransfer
  | timerDiv
  | interrupts
  | audio
  | wavePattern
  | lcd
  | oamDma
  | disableBootRom
  | vramDma
  | bgObjPalettes
  | prepareSpeedSwitch
  | infrared
  | objectPriority
  | vramBank
  | wramBank
  | unused
deriving DecidableEq

/-- Bus state: the fields of IO plus the inner state of every register device
it owns (io.rs struct IO and struct IORegisters, with each device's own fields
inlined).  The cartridge is kept abstract as in the Rust generic parameter. -/
structure IOState (C : Type) where
  cart : C
  bootRom : List Nat
  vram : List Nat
  vramBank : Nat
  wram : List Nat
  wramBank : Nat
  oam : List Nat
  hram : List Nat
  joypad : JoypadData
  timer : TimerDIV
  interruptEnabled : Nat
  interruptRequested : Nat
  lcd : LCDData
  oamDmaAddress : Nat
  oamDmaInProgress : Bool
  disableBootRom : Nat
  objectPriority : Nat
  model : Model

/-- IO::resolve_address_to_device from io.rs, translated arm for arm.  The
DMA-lockout block comes first; then the address-range match; then the
0xFF00-0xFFFF low-byte match in source order (so 0x46 hits the OAM-DMA
register before the 0x40-0x4B LCD arm, and the CGB guard splits the tail). -/
def resolve {C : Type} (s : IOState C) (address : Nat) : Device :=
  if s.oamDmaInProgress then
    if 0xFF80 ≤ address ∧ address ≤ 0xFFFE then .highRam
    else if s.model.isCgb ∧ (address ≤ 0x7FFF ∨ (0xA000 ≤ address ∧ address ≤ 0xBFFF)) then
      .cartridge
    else .noAccess
  else if address ≤ 0x7FFF then
    if s.disableBootRom ≠ 0 ∧ (address < 0x100 ∨ (0x300 ≤ address ∧ s.model.isCgb)) then
      .bootRom
    else .cartridge
  else if address ≤ 0x9FFF then .videoRam
  else if address ≤ 0xBFFF then .cartridge
  else if address ≤ 0xFDFF then .workRam
  else if address ≤ 0xFE9F then .oam
  else if address ≤ 0xFEFF then .noAccess
  else
    let low := address &&& 0xFF
    if 0x80 ≤ low ∧ low ≤ 0xFE then .highRam
    else if low = 0x00 then .joypad
    else if low = 0x01 ∨ low = 0x02 then .serialTransfer
    else if 0x04 ≤ low ∧ low ≤ 0x07 then .timerDiv
    else if low = 0x0F then .interrupts
    else if 0x10 ≤ low ∧ low ≤ 0x26 then .audio
    else if 0x27 ≤ low ∧ low ≤ 0x2F then .unused
    else if 0x30 ≤ low ∧ low ≤ 0x3F then .wavePattern
    else if low = 0x46 then .oamDma
    else if 0x40 ≤ low ∧ low ≤ 0x4B then .lcd
    else if low = 0x50 then .disableBootRom
    else if low = 0xFF then .interrupts
    else if low = 0x03 then .unused
    else if 0x08 ≤ low ∧ low ≤ 0x0E then .unused
    else if low = 0x4C then .unused
    else if low = 0x4E then .unused
    else if 0x57 ≤ low ∧ low ≤ 0x67 then .unused
    else if 0x6D ≤ low ∧ low ≤ 0x6F then .unused
    else if 0x71 ≤ low ∧ low ≤ 0x7F then .unused
    else if ¬ s.model.isCgb then .unused
    else if low = 0x4D then .prepareSpeedSwitch
    else if low = 0x4F then .vramBank
    else if 0x51 ≤ low ∧ low ≤ 0x55 then .vramDma
    else if low = 0x56 then .infrared
    else if 0x68 ≤ low ∧ low ≤ 0x6B then .bgObjPalettes
    else if low = 0x6C then .objectPriority
    else if low = 0x70 then .wramBank
    else .unused

/-- VideoRAM byte offset from memory.rs: (bank & 1) * 0x2000 | (addr & 0x1FFF). -/
def vramOffset (bank address : Nat) : Nat :=
  ((bank &&& 1) <<< 13) ||| (address &&& 0x1FFF)

/-- WorkRAM byte offset from memory.rs: address bit 12 selects fixed bank 0 or
the switchable bank (bank & 7). -/
def wramOffset (bank address : Nat) : Nat :=
  (if address &&& 0x1000 = 0 then 0 else (bank &&& 7) <<< 12) ||| (address &&& 0xFFF)

/-- One bus write: resolve the address, then Memory::set_data_lines with
write=true on the resolved device (each arm is that device's write from the
source).  LCD writes can hit todo!() arms, modelled as none. -/
def busWrite {C : Type} (cw : C → Nat → Nat → C) (s : IOState C) (address data : Nat) :
    Option (IOState C) :=
  match resolve s address with
  | .cartridge => some { s with cart := cw s.cart address data }
  | .bootRom => some s
  | .videoRam => some { s with vram := s.vram.set (vramOffset s.vramBank address) data }
  | .workRam => some { s with wram := s.wram.set (wramOffset s.wramBank address) data }
  | .oam => some { s with oam := s.oam.set (address &&& 0xFF) data }
  | .highRam => some { s with hram := s.hram.set (address &&& 0x7F) data }
  | .noAccess => some s
  | .joypad => some { s with joypad := s.joypad.write data }
  | .serialTransfer => some s
  | .timerDiv => some { s with timer := s.timer.write address data }
  | .interrupts =>
      if address &&& 0xF0 = 0 then some { s with interruptRequested := data }
      else some { s with interruptEnabled := data }
  | .audio => some s
  | .wavePattern => some s
  | .lcd => (s.lcd.write address data).map fun l => { s with lcd := l }
  | .oamDma => some { s with oamDmaAddress := (data &&& 0xFF) <<< 8, oamDmaInProgress := true }
  | .disableBootRom => some { s with disableBootRom := disableBootRomWrite s.disableBootRom data }
  | .vramDma => some s
  | .bgObjPalettes => some s
  | .prepareSpeedSwitch => some s
  | .infrared => some s
  | .objectPriority => some { s with objectPriority := data }
  | .vramBank => some { s with vramBank := data }
  | .wramBank => some { s with wramBank := data }
  | .unused => some s

/-- One bus read: resolve the address, then the resolved device's read.  No
device read in the source mutates register state (the set_data_lines /
read_out pair only latches the address), so the read returns the byte alone.
LCD reads can hit todo!() arms, modelled as none. -/
def busRead {C : Type} (cr : C → Nat → Nat) (s : IOState C) (address : Nat) : Option Nat :=
  match resolve s address with
  | .cartridge => some (cr s.cart address)
  | .bootRom => some (bootRomRead s.bootRom address)
  | .videoRam => some (s.vram.getD (vramOffset s.vramBank address) 0)
  | .workRam => some (s.wram.getD (wramOffset s.wramBank address) 0)
  | .oam => some (s.oam.getD (address &&& 0xFF) 0)
  | .highRam => some (s.hram.getD (address &&& 0x7F) 0)
  | .noAccess => some nullMemoryReadOut
  | .joypad => some s.joypad.read
  | .serialTransfer => some 0x00
  | .timerDiv => some (s.timer.read address)
  | .interrupts =>
      if address &&& 0xF0 = 0 then some s.interruptRequested else some s.interruptEnabled
  | .audio => some 0x00
  | .wavePattern => some 0x00
  | .lcd => s.lcd.read address
  | .oamDma => some ((s.oamDmaAddress >>> 8) &&& 0xFF)
  | .disableBootRom => some s.disableBootRom
  | .vramDma => some 0x00
  | .bgObjPalettes => some 0x00
  | .prepareSpeedSwitch => some 0x00
  | .infrared => some 0b10
  | .objectPriority => some s.objectPriority
  | .vramBank => some s.vramBank
  | .wramBank => some s.wramBank
  | .unused => some 0xFF

/-- Typical banked ROM offset from mbc.rs (typical_rom_offset via
double_bank_rom_offset with bank0 = 0): addresses up to 0x3FFF read bank 0,
the rest read bank * 0x4000 + (address & 0x3FFF). -/
def typicalRomOffset (address bank : Nat) : Nat :=
  if address ≤ 0x3FFF then address else 0x4000 * bank + (address &&& 0x3FFF)

/-- Typical banked RAM offset from mbc.rs: bank * 0x2000 + (address & 0x1FFF). -/
def typicalRamOffset (address bank : Nat) : Nat :=
  0x2000 * bank + (address &&& 0x1FFF)

/-- RTC register snapshot, from mbc3.rs struct RTCData. -/
structure RTCData where
  seconds : Nat
  minutes : Nat
  hours : Nat
  daysLow : Nat
  flags : Nat
deriving DecidableEq

/-- The zero snapshot produced by RTCData's derived Default. -/
def RTCData.zero : RTCData := ⟨0, 0, 0, 0, 0⟩

/-- RAM-window mode of MBC3, from mbc3.rs enum MBC3RAMMode. -/
inductive MBC3RAMMode where
  | ramBank (n : Nat)
  | rtcSeconds
  | rtcMinutes
  | rtcHours
  | rtcDaysLow
  | rtcFlags
deriving DecidableEq

/-- Mapper3 cartridge state, from mbc3.rs struct MBC3. -/
structure MBC3 where
  rom : List Nat
  ram : List Nat
  ramEnabled : Bool
  romBank : Nat
  ramMode : MBC3RAMMode
  latched : Bool
  rtc : Option RTCData
  latchedRtc : Option RTCData
deriving DecidableEq

/-- MBC3 write from mbc3.rs (Memory::write), translated arm for arm.  The
0x2000-0x3FFF arm mirrors (data & 0x7F).clamp(1, rom.len() / 0x4000): the Rust
clamp keeps the 7-bit value between 1 and the bank COUNT (not count - 1); the
min-max form below is equal to it whenever 1 <= count, which holds for every
constructible ROM (32KiB or more).  RAM-window stores go through Rust slice
indexing and RTC stores through Option::unwrap, both panics when out of range,
modelled by none. -/
def MBC3.write (s : MBC3) (address data : Nat) : Option MBC3 :=
  if address ≤ 0x1FFF then
    if data = 0xA ∧ (s.ram ≠ [] ∨ s.rtc = none) then
      some { s with ramEnabled := true }
    else if data = 0x0 then
      some { s with ramEnabled := false }
    else
      some s
  else if address ≤ 0x3FFF then
    some { s with romBank := min (s.rom.length / 0x4000) (max 1 (data &&& 0x7F)) }
  else if address ≤ 0x5FFF then
    if s.rtc = none then
      if data < 4 then some { s with ramMode := .ramBank data } else some s
    else
      if data ≤ 0x03 then some { s with ramMode := .ramBank data }
      else if data = 0x08 then some { s with ramMode := .rtcSeconds }
      else if data = 0x09 then some { s with ramMode := .rtcMinutes }
      else if data = 0x0A then some { s with ramMode := .rtcHours }
      else if data = 0x0B then some { s with ramMode := .rtcDaysLow }
      else if data = 0x0C then some { s with ramMode := .rtcFlags }
      else some s
  else if address ≤ 0x7FFF then
    let s1 := if data = 0x00 then { s with latched := false } else s
    if data = 0x01 ∧ s1.latched = false then
      some { s1 with latched := true, latchedRtc := s1.rtc }
    else
      some s1
  else
    if s.ramEnabled then
      match s.ramMode with
      | .ramBank b =>
          if s.ram ≠ [] then
            if typicalRamOffset address b < s.ram.length then
              some { s with ram := s.ram.set (typicalRamOffset address b) data }
            else
              none
          else
            some s
      | .rtcSeconds => s.rtc.map fun r => { s with rtc := some { r with seconds := data } }
      | .rtcMinutes => s.rtc.map fun r => { s with rtc := some { r with minutes := data } }
      | .rtcHours => s.rtc.map fun r => { s with rtc := some { r with hours := data } }
      | .rtcDaysLow => s.rtc.map fun r => { s with rtc := some { r with daysLow := data } }
      | .rtcFlags => s.rtc.map fun r => { s with rtc := some { r with flags := data } }
    else
      some s

/-- MBC3 read from mbc3.rs (Memory::read).  ROM reads go through Rust slice
indexing, which panics when the computed offset escapes the buffer; that is
modelled with getElem?. -/
def MBC3.read (s : MBC3) (address : Nat) : Option Nat :=
  if address ≤ 0x7FFF then
    s.rom[typicalRomOffset address s.romBank]?
  else if s.ramEnabled then
    match s.ramMode with
    | .ramBank n =>
        if s.ram = [] then some 0xFF else s.ram[typicalRamOffset address n]?
    | .rtcSeconds => s.latchedRtc.map (fun r => r.seconds)
    | .rtcMinutes => s.latchedRtc.map (fun r => r.minutes)
    | .rtcHours => s.latchedRtc.map (fun r => r.hours)
    | .rtcDaysLow => s.latchedRtc.map (fun r => r.daysLow)
    | .rtcFlags => s.latchedRtc.map (fun r => r.flags)
  else
    some 0xFF

/-- Mapper2 cartridge state, from mbc2.rs struct MBC2 (its RAM is a fixed
256-byte array). -/
structure MBC2 where
  rom : List Nat
  ram : List Nat
  ramEnabled : Bool
  romBank : Nat
deriving DecidableEq

/-- MBC2 write from mbc2.rs: control region is dispatched on address bit 8;
the ROM bank arm mirrors ((data as usize) & 0xF).clamp(1, rom.len() / 0x4000).
RAM stores mask the offset to the 256-byte array, so they never escape it. -/
def MBC2.write (s : MBC2) (address data : Nat) : MBC2 :=
  if address ≤ 0x3FFF then
    if address &&& 0x100 = 0 then
      { s with ramEnabled := data = 0xA ∧ s.ram ≠ [] }
    else
      { s with romBank := min (s.rom.length / 0x4000) (max 1 (data &&& 0xF)) }
  else if s.ramEnabled ∧ 0xA000 ≤ address ∧ address ≤ 0xBFFF then
    let offset := (address >>> 1) &&& (s.ram.length - 1)
    let shift := (address &&& 1) <<< 4
    let byte := s.ram.getD offset 0
    { s with ram := s.ram.set offset ((byte &&& (255 - (0xF <<< shift))) ||| ((data &&& 0xF) <<< shift)) }
  else
    s

/-- MBC2 read from mbc2.rs: ROM reads use the typical banked offset through
Rust slice indexing (modelled fallibly); nibble RAM reads mask into the
256-byte array. -/
def MBC2.read (s : MBC2) (address : Nat) : Option Nat :=
  if address ≤ 0x7FFF then
    s.rom[typicalRomOffset address s.romBank]?
  else if s.ramEnabled then
    let offset := (address >>> 1) &&& (s.ram.length - 1)
    let shift := (address &&& 1) <<< 4
    some ((s.ram.getD offset 0 >>> shift) &&& 0xF)
  else
    some 0xFF

/-- ROM-only cartridge state, from no_rom.rs struct NoROM. -/
structure NoROM where
  rom : List Nat
  ram : List Nat
deriving DecidableEq

/-- NoROM write from no_rom.rs: only addresses at or below
CARTRIDGE_ROM_MAIN_BANK_END (0x3FFF) are ignored; any other address with
non-empty RAM stores into ram[typical_ram_offset(address, 0)] (a Rust panic,
modelled as none, if the offset escaped the buffer). -/
def NoROM.write (s : NoROM) (address data : Nat) : Option NoROM :=
  if address ≤ 0x3FFF ∨ s.ram = [] then
    some s
  else if typicalRamOffset address 0 < s.ram.length then
    some { s with ram := s.ram.set (typicalRamOffset address 0) data }
  else
    none

/-- NoROM read from no_rom.rs. -/
def NoROM.read (s : NoROM) (address : Nat) : Option Nat :=
  if address ≤ 0x7FFF then
    s.rom[address]?
  else if s.ram = [] then
    some 0xFF
  else
    s.ram[typicalRamOffset address 0]?

/-! Concrete states used by the counterexample evaluations. -/

/-- A monochrome bus state with no OAM-DMA transfer in progress and the
boot-ROM-disable byte still at its default 0 (the state Emulator::new
produces, with the cartridge abstracted to Unit). -/
def ioDmgNoDma : IOState Unit :=
  { cart := (), bootRom := [], vram := [], vramBank := 0, wram := [], wramBank := 1,
    oam := [], hram := [],
    joypad := ⟨false, false, false, false, false, false, false, false, false, false⟩,
    timer := ⟨0, 0, 0, 0⟩, interruptEnabled := 0, interruptRequested := 0,
    lcd := ⟨0, 0⟩, oamDmaAddress := 0, oamDmaInProgress := false,
    disableBootRom := 0, objectPriority := 0, model := .DMG }

/-- The state MBC3::new yields for a 32KiB RTC cartridge with no RAM (header
cartridge-type byte 0x0F, MBC3+TIMER+BATTERY): ram_enabled false, rom_bank 1,
ram_mode RAMBank(1), latched true, both RTC snapshots present. -/
def mbc3RtcNoRam : MBC3 :=
  { rom := List.replicate 0x8000 0, ram := [], ramEnabled := false, romBank := 1,
    ramMode := .ramBank 1, latched := true, rtc := some RTCData.zero,
    latchedRtc := some RTCData.zero }

/-- The state MBC3::new yields for a 32KiB MBC3 cartridge with neither RAM nor
RTC (header cartridge-type byte 0x11). -/
def mbc3Bare : MBC3 :=
  { rom := List.replicate 0x8000 0, ram := [], ramEnabled := false, romBank := 1,
    ramMode := .ramBank 1, latched := true, rtc := none, latchedRtc := none }

/-- The state NoROM::new yields for a 32KiB ROM-only cartridge with one 8KiB
RAM bank (header cartridge-type byte 0x08). -/
def noRomWithRam : NoROM :=
  { rom := List.replicate 0x8000 0, ram := List.replicate 0x2000 0 }

/-- C1: with no OAM-DMA transfer in progress the spec routes low addresses to
BootROM exactly while the boot-ROM-disable byte is zero, and to the cartridge
once it is non-zero.  The code has the condition inverted: with the latch byte
0 address 0x0050 resolves to the cartridge, and with the latch byte 1 it
resolves to BootROM. -/
theorem c1_bootrom_overlay_inverted :
    resolve ioDmgNoDma 0x50 = Device.cartridge ∧
    resolve { ioDmgNoDma with disableBootRom := 1 } 0x50 = Device.bootRom := by
  exact ⟨rfl, rfl⟩

/-- C2: the spec says every write to the boot-ROM-disable register is honored
and a non-zero byte can never return to zero.  The code gates the store on the
byte being ALREADY non-zero, so a write of 1 to the default byte 0 is dropped,
while a write of 0 to a non-zero byte resets it to zero. -/
theorem c2_disable_latch_write_gate_inverted :
    disableBootRomWrite 0 1 = 0 ∧ disableBootRomWrite 1 0 = 0 := by
  exact ⟨rfl, rfl⟩

/-- C3: the spec enables the Mapper3 RAM latch on a 0x0A write when RAM is
non-empty OR the RTC is present.  The code tests rtc.is_none() instead of
rtc.is_some(): a cartridge with RTC but no RAM cannot be enabled, while a
cartridge with neither RAM nor RTC can. -/
theorem c3_mbc3_ram_enable_gate_inverted :
    (∃ s, MBC3.write mbc3RtcNoRam 0x0000 0x0A = some s ∧ s.ramEnabled = false) ∧
    (∃ s, MBC3.write mbc3Bare 0x0000 0x0A = some s ∧ s.ramEnabled = true) := by
  exact ⟨⟨_, rfl, rfl⟩, ⟨_, rfl, rfl⟩⟩

/-- C4: on a divider tick with cycle count divisible by
SOC_BASE_CLOCK_SPEED/16384 = 256 the spec increments the DIV byte (value[0],
the byte read back from the divider address 0xFF04).  The code calls
get_timer_counter() and therefore increments value[1] (TIMA) instead: from the
all-zero register block, a tick at count 0 yields value = [0,1,0,0] and the
divider address still reads 0. -/
theorem c4_tick_div_increments_wrong_byte :
    TimerDIV.tickDiv ⟨0, 0, 0, 0⟩ 0 = ⟨0, 1, 0, 0⟩ ∧
    TimerDIV.read (TimerDIV.tickDiv ⟨0, 0, 0, 0⟩ 0) 0xFF04 = 0 := by
  exact ⟨rfl, rfl⟩

/-- C5: the spec promises the mapper hot path never indexes out of bounds.
Mapper3 (like Mapper2) clamps the ROM bank register to [1, bank_count] instead
of [1, bank_count - 1]: on a 32KiB (2-bank) cartridge, writing 0x02 to the
bank register stores bank 2, and the next read at 0x4000 computes ROM offset
2 * 0x4000 = 0x8000, one past the last valid index of the 0x8000-byte buffer,
so the Rust slice access panics (modelled here as a none result). -/
theorem c5_mbc3_rom_bank_out_of_bounds :
    ∃ s, MBC3.write mbc3Bare 0x2000 0x02 = some s ∧ s.romBank = 2 ∧
      typicalRomOffset 0x4000 s.romBank = s.rom.length ∧
      MBC3.read s 0x4000 = none := by
  have hlen : mbc3Bare.rom.length = 0x8000 := List.length_replicate _ _
  refine ⟨{ mbc3Bare with romBank := 2 }, ?_, rfl, ?_, ?_⟩
  · simp only [MBC3.write]
    rw [hlen]
    norm_num
    decide
  · show typicalRomOffset 0x4000 2 = mbc3Bare.rom.length
    rw [hlen]
    decide
  · simp only [MBC3.read]
    rw [if_pos (by decide)]
    show (List.replicate 0x8000 (0 : Nat))[typicalRomOffset 0x4000 2]? = none
    rw [List.getElem?_replicate]
    decide

/-- C6: the spec says writes anywhere in the ROM window 0x0000-0x7FFF leave a
ROM-only cartridge unchanged.  The code only ignores addresses up to 0x3FFF;
a write at 0x4000 with non-empty RAM stores into ram[address & 0x1FFF], so the
first RAM byte of a fresh cartridge becomes 0x42. -/
theorem c6_norom_rom_window_write_mutates_ram :
    ∃ s, NoROM.write noRomWithRam 0x4000 0x42 = some s ∧
      s.ram[0]? = some 0x42 ∧ noRomWithRam.ram[0]? = some 0 := by
  have hlen : noRomWithRam.ram.length = 0x2000 := List.length_replicate _ _
  have hne : noRomWithRam.ram ≠ [] := by
    intro h
    rw [h] at hlen
    exact absurd hlen (by decide)
  have hoff : typicalRamOffset 0x4000 0 = 0 := by decide
  refine ⟨{ noRomWithRam with
              ram := noRomWithRam.ram.set (typicalRamOffset 0x4000 0) 0x42 },
          ?_, ?_, ?_⟩
  · simp only [NoROM.write]
    rw [if_neg (by push_neg; exact ⟨by decide, hne⟩), if_pos (by rw [hoff, hlen]; decide)]
  · rw [hoff]
    show (noRomWithRam.ram.set 0 0x42)[0]? = some 0x42
    rw [List.getElem?_set, hlen]
    norm_num
  · show (List.replicate 0x2000 (0 : Nat))[(0 : Nat)]? = some 0
    rw [List.getElem?_replicate]
    norm_num

/-- With an OAM-DMA transfer in progress, the decoder reduces to the three-way
DMA-lockout arm of IO::resolve_address_to_device. -/
theorem resolve_of_dma {C : Type} (s : IOState C) (address : Nat)
    (h : s.oamDmaInProgress = true) :
    resolve s address =
      if 0xFF80 ≤ address ∧ address ≤ 0xFFFE then .highRam
      else if s.model.isCgb ∧ (address ≤ 0x7FFF ∨ (0xA000 ≤ address ∧ address ≤ 0xBFFF)) then
        .cartridge
      else .noAccess := by
  unfold resolve
  rw [h]
  rfl

/-- C7: while the OAM-DMA in-progress flag is set, the decoder sends the
HighRAM window 0xFF80-0xFFFE to HighRAM, the cartridge ROM/RAM windows to the
cartridge only on color hardware, and everything else to the null sink, whose
reads return the fill byte 0xFF and whose writes change nothing. -/
theorem c7_dma_lockout_routing {C : Type}
    (cr : C → Nat → Nat) (cw : C → Nat → Nat → C)
    (s : IOState C) (address data : Nat)
    (hdma : s.oamDmaInProgress = true) :
    resolve s address =
      (if 0xFF80 ≤ address ∧ address ≤ 0xFFFE then .highRam
       else if s.model.isCgb ∧ (address ≤ 0x7FFF ∨ (0xA000 ≤ address ∧ address ≤ 0xBFFF)) then
         .cartridge
       else .noAccess)
    ∧ (resolve s address = .noAccess →
        busRead cr s address = some 0xFF ∧ busWrite cw s address data = some s) := by
  refine ⟨resolve_of_dma s address hdma, fun hna => ⟨?_, ?_⟩⟩
  · unfold busRead
    rw [hna]
    rfl
  · unfold busWrite
    rw [hna]

/-- A DMA-locked bus state used to witness the routing theorems. -/
def ioDmgDma : IOState Unit := { ioDmgNoDma with oamDmaInProgress := true }

/-- Witness for c7_dma_lockout_routing at address 0xC000 (WorkRAM when idle,
null sink during DMA) on the monochrome state. -/
theorem c7_dma_lockout_routing_witness :
    ioDmgDma.oamDmaInProgress = true ∧
    (resolve ioDmgDma 0xC000 =
       (if 0xFF80 ≤ (0xC000 : Nat) ∧ (0xC000 : Nat) ≤ 0xFFFE then Device.highRam
        else if ioDmgDma.model.isCgb ∧
            ((0xC000 : Nat) ≤ 0x7FFF ∨ (0xA000 ≤ (0xC000 : Nat) ∧ (0xC000 : Nat) ≤ 0xBFFF)) then
          Device.cartridge
        else Device.noAccess)
     ∧ (resolve ioDmgDma 0xC000 = Device.noAccess →
         busRead (fun _ _ => 0) ioDmgDma 0xC000 = some 0xFF ∧
         busWrite (fun c _ _ => c) ioDmgDma 0xC000 7 = some ioDmgDma)) :=
  ⟨rfl, c7_dma_lockout_routing (fun _ _ => 0) (fun c _ _ => c) ioDmgDma 0xC000 7 rfl⟩

/-- Without a transfer in progress, address 0xFF46 resolves to the OAM-DMA
register (low byte 0x46 precedes the 0x40-0x4B LCD arm in the match). -/
theorem resolve_ff46_idle {C : Type} (t : IOState C)
    (h : t.oamDmaInProgress = false) :
    resolve t 0xFF46 = Device.oamDma := by
  unfold resolve
  rw [h]
  rfl

/-- With a transfer in progress, address 0xFF46 is outside the HighRAM window
and both cartridge windows, so it falls to the null sink. -/
theorem resolve_ff46_dma {C : Type} (t : IOState C)
    (h : t.oamDmaInProgress = true) :
    resolve t 0xFF46 = Device.noAccess := by
  rw [resolve_of_dma t 0xFF46 h]
  norm_num

/-- C10: a bus write to 0xFF46 always leaves the DMA in-progress flag set
(OAMDMA::write sets it, and once set the register resolves to the null sink
whose writes are dropped), and once the flag is set no later bus write at any
address can clear it; no device read mutates register state in the source, so
bus reads cannot clear it either. -/
theorem c10_oam_dma_flag_latches {C : Type}
    (cw : C → Nat → Nat → C) (s : IOState C) (address data : Nat)
    (hdma : s.oamDmaInProgress = true) :
    (∃ s2, busWrite cw s address data = some s2 ∧ s2.oamDmaInProgress = true)
    ∧ resolve s 0xFF46 = Device.noAccess
    ∧ (∀ (t : IOState C) (d2 : Nat),
        ∃ t2, busWrite cw t 0xFF46 d2 = some t2 ∧ t2.oamDmaInProgress = true) := by
  have hr := resolve_of_dma s address hdma
  refine ⟨?_, resolve_ff46_dma s hdma, ?_⟩
  · by_cases h1 : 0xFF80 ≤ address ∧ address ≤ 0xFFFE
    · rw [if_pos h1] at hr
      exact ⟨{ s with hram := s.hram.set (address &&& 0x7F) data },
             by unfold busWrite; rw [hr], hdma⟩
    · rw [if_neg h1] at hr
      by_cases h2 : s.model.isCgb ∧ (address ≤ 0x7FFF ∨ (0xA000 ≤ address ∧ address ≤ 0xBFFF))
      · rw [if_pos h2] at hr
        exact ⟨{ s with cart := cw s.cart address data },
               by unfold busWrite; rw [hr], hdma⟩
      · rw [if_neg h2] at hr
        exact ⟨s, by unfold busWrite; rw [hr], hdma⟩
  · intro t d2
    by_cases ht : t.oamDmaInProgress = true
    · exact ⟨t, by unfold busWrite; rw [resolve_ff46_dma t ht], ht⟩
    · have ht2 : t.oamDmaInProgress = false := by
        revert ht
        cases t.oamDmaInProgress <;> simp
      exact ⟨{ t with oamDmaAddress := (d2 &&& 0xFF) <<< 8, oamDmaInProgress := true },
             by unfold busWrite; rw [resolve_ff46_idle t ht2], rfl⟩

/-- Witness for c10_oam_dma_flag_latches on the DMA-locked monochrome state at
address 0x8000, data 0x12. -/
theorem c10_oam_dma_flag_latches_witness :
    ioDmgDma.oamDmaInProgress = true ∧
    ((∃ s2, busWrite (fun c _ _ => c) ioDmgDma 0x8000 0x12 = some s2 ∧
        s2.oamDmaInProgress = true)
     ∧ resolve ioDmgDma 0xFF46 = Device.noAccess
     ∧ (∀ (t : IOState Unit) (d2 : Nat),
         ∃ t2, busWrite (fun c _ _ => c) t 0xFF46 d2 = some t2 ∧
           t2.oamDmaInProgress = true)) :=
  ⟨rfl, c10_oam_dma_flag_latches (fun c _ _ => c) ioDmgDma 0x8000 0x12 rfl⟩

/-- MBC3 writes in the latch-trigger range 0x6000-0x7FFF reduce to the
edge-detection arm of MBC3::write. -/
theorem mbc3_write_latch_region (s : MBC3) (a d : Nat)
    (h1 : 0x6000 ≤ a) (h2 : a ≤ 0x7FFF) :
    MBC3.write s a d =
      (let s1 := if d = 0x00 then { s with latched := false } else s
       if d = 0x01 ∧ s1.latched = false then
         some { s1 with latched := true, latchedRtc := s1.rtc }
       else some s1) := by
  unfold MBC3.write
  rw [if_neg (by omega), if_neg (by omega), if_neg (by omega), if_pos h2]

/-- Any MBC3 write that is not a 0x00 store into the latch-trigger range
leaves a set latch flag set and the latched snapshot untouched. -/
theorem mbc3_write_preserves_latch (t : MBC3) (c d : Nat)
    (hlat : t.latched = true) (hnz : ¬(0x6000 ≤ c ∧ c ≤ 0x7FFF ∧ d = 0)) :
    ∀ u, MBC3.write t c d = some u → u.latched = true ∧ u.latchedRtc = t.latchedRtc := by
  intro u hu
  by_cases hc1 : c ≤ 0x1FFF
  · unfold MBC3.write at hu
    rw [if_pos hc1] at hu
    split_ifs at hu <;> (injection hu with hu; subst hu; exact ⟨hlat, rfl⟩)
  by_cases hc2 : c ≤ 0x3FFF
  · unfold MBC3.write at hu
    rw [if_neg hc1, if_pos hc2] at hu
    injection hu with hu
    subst hu
    exact ⟨hlat, rfl⟩
  by_cases hc3 : c ≤ 0x5FFF
  · unfold MBC3.write at hu
    rw [if_neg hc1, if_neg hc2, if_pos hc3] at hu
    split_ifs at hu <;> (injection hu with hu; subst hu; exact ⟨hlat, rfl⟩)
  by_cases hc4 : c ≤ 0x7FFF
  · have hd : d ≠ 0 := fun h0 => hnz ⟨by omega, hc4, h0⟩
    rw [mbc3_write_latch_region t c d (by omega) hc4] at hu
    simp only [if_neg hd] at hu
    rw [if_neg (by simp [hlat])] at hu
    injection hu with hu
    subst hu
    exact ⟨hlat, rfl⟩
  · unfold MBC3.write at hu
    rw [if_neg hc1, if_neg hc2, if_neg hc3, if_neg hc4] at hu
    by_cases he : t.ramEnabled = true
    · rw [if_pos he] at hu
      split at hu
      · split_ifs at hu <;> (injection hu with hu; subst hu; exact ⟨hlat, rfl⟩)
      all_goals
        rcases hrt : t.rtc with _ | r <;> rw [hrt] at hu
        · rw [Option.map_none'] at hu
          exact absurd hu (by simp)
        · rw [Option.map_some'] at hu
          injection hu with hu
          subst hu
          exact ⟨hlat, rfl⟩
    · rw [if_neg he] at hu
      injection hu with hu
      subst hu
      exact ⟨hlat, rfl⟩

/-- C8: on an RTC-bearing Mapper3, writing 0x00 then 0x01 anywhere in
0x6000-0x7FFF copies the live RTC snapshot into the latched snapshot; once the
latch flag is set (as it is at construction), any further write that is not a
0x00 store into that range, including another 0x01 strobe and any write that
alters the live RTC, leaves the latched snapshot unchanged, and a lone 0x01
write against a set latch is a complete no-op. -/
theorem c8_mbc3_rtc_latch_edge (s t : MBC3) (a aa b c d : Nat)
    (ha : 0x6000 ≤ a ∧ a ≤ 0x7FFF) (haa : 0x6000 ≤ aa ∧ aa ≤ 0x7FFF)
    (hb : 0x6000 ≤ b ∧ b ≤ 0x7FFF)
    (_hrtc : s.rtc.isSome = true) (hlat : t.latched = true)
    (hnz : ¬(0x6000 ≤ c ∧ c ≤ 0x7FFF ∧ d = 0)) :
    (MBC3.write s a 0x00 = some { s with latched := false } ∧
     MBC3.write { s with latched := false } aa 0x01 =
       some { s with latched := true, latchedRtc := s.rtc })
    ∧ MBC3.write t b 0x01 = some t
    ∧ (∀ u, MBC3.write t c d = some u →
        u.latched = true ∧ u.latchedRtc = t.latchedRtc) := by
  refine ⟨⟨?_, ?_⟩, ?_, mbc3_write_preserves_latch t c d hlat hnz⟩
  · rw [mbc3_write_latch_region s a 0x00 ha.1 ha.2]
    simp
  · rw [mbc3_write_latch_region _ aa 0x01 haa.1 haa.2]
    simp
  · rw [mbc3_write_latch_region t b 0x01 hb.1 hb.2]
    simp [hlat]

/-- A small RTC-bearing MBC3 state whose live and latched snapshots differ,
with the latch flag set as MBC3::new leaves it. -/
def mbc3LatchWitness : MBC3 :=
  { rom := [], ram := [], ramEnabled := false, romBank := 1,
    ramMode := .ramBank 1, latched := true, rtc := some ⟨42, 1, 2, 3, 4⟩,
    latchedRtc := some RTCData.zero }

/-- Witness for c8_mbc3_rtc_latch_edge with the strobe at 0x6000/0x6001, the
lone 0x01 at 0x7FFF, and an unrelated write of 1 at 0x4000. -/
theorem c8_mbc3_rtc_latch_edge_witness :
    (0x6000 ≤ (0x6000 : Nat) ∧ (0x6000 : Nat) ≤ 0x7FFF) ∧
    mbc3LatchWitness.rtc.isSome = true ∧
    mbc3LatchWitness.latched = true ∧
    ¬(0x6000 ≤ (0x4000 : Nat) ∧ (0x4000 : Nat) ≤ 0x7FFF ∧ (1 : Nat) = 0) ∧
    ((MBC3.write mbc3LatchWitness 0x6000 0x00 =
        some { mbc3LatchWitness with latched := false } ∧
      MBC3.write { mbc3LatchWitness with latched := false } 0x6001 0x01 =
        some { mbc3LatchWitness with latched := true, latchedRtc := mbc3LatchWitness.rtc })
     ∧ MBC3.write mbc3LatchWitness 0x7FFF 0x01 = some mbc3LatchWitness
     ∧ (∀ u, MBC3.write mbc3LatchWitness 0x4000 1 = some u →
         u.latched = true ∧ u.latchedRtc = mbc3LatchWitness.latchedRtc)) :=
  ⟨⟨by decide, by decide⟩, rfl, rfl, by decide,
   c8_mbc3_rtc_latch_edge mbc3LatchWitness mbc3LatchWitness 0x6000 0x6001 0x7FFF 0x4000 1
     ⟨by decide, by decide⟩ ⟨by decide, by decide⟩ ⟨by decide, by decide⟩
     rfl rfl (by decide)⟩

/-- C9: the timer tick.  The rate table of TimerDIV::tick_timer maps control
bits 0b00 to 4096 Hz, 0b01 to 262144 Hz, 0b10 to 65536 Hz and 0b11 to
16384 Hz; with the enable bit (bit 2) set and the cycle count divisible by
SOC_BASE_CLOCK_SPEED/rate the counter byte increments, reloading from the
modulo byte and reporting the overflow when it wraps; with bit 2 clear the
tick changes nothing and reports no overflow. -/
theorem c9_timer_tick (s : TimerDIV) (c : Nat) (hcnt : s.v1 < 256) :
    (timerRate 0 = 4096 ∧ timerRate 1 = 262144 ∧ timerRate 2 = 65536 ∧
     timerRate 3 = 16384)
    ∧ (s.v3 &&& 0b100 ≠ 0 →
        c % (SOC_BASE_CLOCK_SPEED / timerRate (s.v3 &&& 0b11)) = 0 →
        TimerDIV.tickTimer s c =
          if s.v1 = 255 then ({ s with v1 := s.v2 }, true)
          else ({ s with v1 := s.v1 + 1 }, false))
    ∧ (s.v3 &&& 0b100 = 0 → TimerDIV.tickTimer s c = (s, false)) := by
  refine ⟨⟨rfl, rfl, rfl, rfl⟩, ?_, ?_⟩
  · intro hen hhit
    unfold TimerDIV.tickTimer
    simp only [TimerDIV.getTimerControl, TimerDIV.getTimerCounter, TimerDIV.getTimerModulo]
    rw [if_pos hen, if_pos hhit]
    by_cases hov : s.v1 = 255
    · rw [if_pos (by omega), if_pos hov]
    · rw [if_neg (by omega), if_neg hov, Nat.mod_eq_of_lt (by omega)]
  · intro hdis
    unfold TimerDIV.tickTimer
    simp only [TimerDIV.getTimerControl]
    rw [if_neg (by simp [hdis])]

/-- Witness for c9_timer_tick: control byte 0b101 (enabled, rate 262144 Hz,
period 16), counter at 255, modulo 7, cycle count 32. -/
theorem c9_timer_tick_witness :
    (⟨0, 255, 7, 5⟩ : TimerDIV).v1 < 256 ∧
    ((timerRate 0 = 4096 ∧ timerRate 1 = 262144 ∧ timerRate 2 = 65536 ∧
      timerRate 3 = 16384)
     ∧ ((⟨0, 255, 7, 5⟩ : TimerDIV).v3 &&& 0b100 ≠ 0 →
         32 % (SOC_BASE_CLOCK_SPEED /
             timerRate ((⟨0, 255, 7, 5⟩ : TimerDIV).v3 &&& 0b11)) = 0 →
         TimerDIV.tickTimer ⟨0, 255, 7, 5⟩ 32 =
           if (⟨0, 255, 7, 5⟩ : TimerDIV).v1 = 255 then
             ({ (⟨0, 255, 7, 5⟩ : TimerDIV) with
                  v1 := (⟨0, 255, 7, 5⟩ : TimerDIV).v2 }, true)
           else
             ({ (⟨0, 255, 7, 5⟩ : TimerDIV) with
                  v1 := (⟨0, 255, 7, 5⟩ : TimerDIV).v1 + 1 }, false))
     ∧ ((⟨0, 255, 7, 5⟩ : TimerDIV).v3 &&& 0b100 = 0 →
         TimerDIV.tickTimer ⟨0, 255, 7, 5⟩ 32 = (⟨0, 255, 7, 5⟩, false))) :=
  ⟨by decide, c9_timer_tick ⟨0, 255, 7, 5⟩ 32 (by decide)⟩

end Adelie
